import Mathlib

/-!
Shallow embedding of the withings-sync measurement synchronisation engine
(src/withings_sync/withings2.py and src/withings_sync/sync.py).

Python floats are idealised as rationals; Python round(x, n) is modelled as
round-half-to-even on rationals.  Python dicts are modelled as association
lists with insertion-order semantics: setting an existing key replaces it in
place, setting a fresh key appends, deletion filters the key out.
-/

/-- Round a rational to the nearest integer, ties to even (Python round). -/
def roundHalfEven (q : ℚ) : ℤ :=
  let f : ℤ := ⌊q⌋
  let r : ℚ := q - f
  if r < 1/2 then f
  else if 1/2 < r then f + 1
  else if f % 2 = 0 then f else f + 1

/-- Model of Python round(q, n) for n decimal digits. -/
def pyRound (n : ℕ) (q : ℚ) : ℚ :=
  (roundHalfEven (q * 10 ^ n) : ℚ) / 10 ^ n

/-- Python truthiness of an optional float: None and 0.0 are falsy. -/
def truthy : Option ℚ → Bool
  | none => false
  | some x => decide (x ≠ 0)

section PyDict

variable {κ : Type} {ν : Type} [DecidableEq κ]

/-- Python `k in d` membership test on an insertion-ordered dict. -/
def dictContains : List (κ × ν) → κ → Bool
  | [], _ => false
  | p :: rest, k => if p.1 = k then true else dictContains rest k

/-- Python `d.get(k)` or `d[k]` lookup on an insertion-ordered dict. -/
def dictLookup : List (κ × ν) → κ → Option ν
  | [], _ => none
  | p :: rest, k => if p.1 = k then some p.2 else dictLookup rest k

/-- Replace every entry keyed k by (k, v), keeping positions. -/
def dictReplace : List (κ × ν) → κ → ν → List (κ × ν)
  | [], _, _ => []
  | p :: rest, k, v =>
      (if p.1 = k then (k, v) else p) :: dictReplace rest k v

/-- Python `d[k] = v`: replace in place when the key exists, append otherwise. -/
def dictSet (d : List (κ × ν)) (k : κ) (v : ν) : List (κ × ν) :=
  if dictContains d k then dictReplace d k v
  else d ++ [(k, v)]

/-- Python `del d[k]`. -/
def dictDel : List (κ × ν) → κ → List (κ × ν)
  | [], _ => []
  | p :: rest, k => if p.1 = k then dictDel rest k else p :: dictDel rest k

/-- Python `d.update(e)`: set every entry of e into d, in order. -/
def pyDictUpdate (d e : List (κ × ν)) : List (κ × ν) :=
  e.foldl (fun acc p => dictSet acc p.1 p.2) d

/-- The key list of a dict. -/
def dictKeys (d : List (κ × ν)) : List κ :=
  d.map (fun p => p.1)

/-- Python `d.keys() == e.keys()`: equality of key sets. -/
def keySetEq (d e : List (κ × ν)) : Bool :=
  d.all (fun p => dictContains e p.1) && e.all (fun p => dictContains d p.1)

theorem dictLookup_replace_self (d : List (κ × ν)) (k : κ) (v : ν)
    (h : dictContains d k = true) :
    dictLookup (dictReplace d k v) k = some v := by
  induction d with
  | nil => simp [dictContains] at h
  | cons p rest ih =>
    by_cases hp : p.1 = k
    · simp [dictReplace, dictLookup, hp]
    · have hrest : dictContains rest k = true := by
        simpa [dictContains, hp] using h
      simpa [dictReplace, dictLookup, hp] using ih hrest

theorem dictLookup_set_self (d : List (κ × ν)) (k : κ) (v : ν) :
    dictLookup (dictSet d k v) k = some v := by
  unfold dictSet
  split
  · next h => exact dictLookup_replace_self d k v h
  · induction d with
    | nil => simp [dictLookup]
    | cons p rest ih =>
      next h =>
      have hp : ¬ p.1 = k := by
        intro hk
        simp [dictContains, hk] at h
      have hrest : ¬ dictContains rest k = true := by
        intro hk
        simp [dictContains, hp, hk] at h
      simpa [dictLookup, hp] using ih hrest

theorem dictLookup_replace_other (d : List (κ × ν)) (k k' : κ) (v : ν) (h : k' ≠ k) :
    dictLookup (dictReplace d k v) k' = dictLookup d k' := by
  induction d with
  | nil => simp [dictReplace]
  | cons p rest ih =>
    by_cases hp : p.1 = k
    · have hpk' : ¬ p.1 = k' := by rw [hp]; exact fun hh => h hh.symm
      have hkk' : ¬ (k : κ) = k' := fun hh => h hh.symm
      simp [dictReplace, dictLookup, hp, hpk', hkk', h, ih]
    · by_cases hpk' : p.1 = k'
      · simp [dictReplace, dictLookup, hp, hpk', h]
      · simp [dictReplace, dictLookup, hp, hpk', h, ih]

theorem dictLookup_set_other (d : List (κ × ν)) (k k' : κ) (v : ν) (h : k' ≠ k) :
    dictLookup (dictSet d k v) k' = dictLookup d k' := by
  unfold dictSet
  split
  · exact dictLookup_replace_other d k k' v h
  · next hc =>
    induction d with
    | nil => simp [dictLookup, Ne.symm h]
    | cons p rest ih =>
      have hp : ¬ p.1 = k := by
        intro hk
        simp [dictContains, hk] at hc
      have hrest : dictContains rest k = false := by
        simpa [dictContains, hp] using hc
      by_cases hpk' : p.1 = k'
      · simp [dictLookup, hpk']
      · simpa [dictLookup, hpk'] using ih (by simp [hrest])

theorem dictLookup_del_self (d : List (κ × ν)) (k : κ) :
    dictLookup (dictDel d k) k = none := by
  induction d with
  | nil => simp [dictDel, dictLookup]
  | cons p rest ih =>
    by_cases hp : p.1 = k
    · simpa [dictDel, hp] using ih
    · simpa [dictDel, dictLookup, hp] using ih

theorem dictLookup_del_other (d : List (κ × ν)) (k k' : κ) (h : k' ≠ k) :
    dictLookup (dictDel d k) k' = dictLookup d k' := by
  induction d with
  | nil => simp [dictDel]
  | cons p rest ih =>
    by_cases hp : p.1 = k
    · have hpk' : ¬ p.1 = k' := by rw [hp]; exact fun hh => h hh.symm
      simpa [dictDel, dictLookup, hp, hpk', Ne.symm h] using ih
    · by_cases hpk' : p.1 = k'
      · simp [dictDel, dictLookup, hp, hpk', h]
      · simpa [dictDel, dictLookup, hp, hpk', h] using ih

end PyDict

/-! Measurement model, from src/withings_sync/withings2.py (WithingsMeasure,
WithingsMeasureGroup, WithingsAccount.get_height). -/

namespace WithingsMeasure

def TYPE_WEIGHT : ℤ := 1
def TYPE_HEIGHT : ℤ := 4
def TYPE_FAT_FREE_MASS : ℤ := 5
def TYPE_FAT_RATIO : ℤ := 6
def TYPE_FAT_MASS_WEIGHT : ℤ := 8
def TYPE_DIASTOLIC_BLOOD_PRESSURE : ℤ := 9
def TYPE_SYSTOLIC_BLOOD_PRESSURE : ℤ := 10
def TYPE_HEART_PULSE : ℤ := 11
def TYPE_TEMPERATURE : ℤ := 12
def TYPE_SP02 : ℤ := 54
def TYPE_BODY_TEMPERATURE : ℤ := 71
def TYPE_SKIN_TEMPERATURE : ℤ := 73
def TYPE_MUSCLE_MASS : ℤ := 76
def TYPE_HYDRATION : ℤ := 77
def TYPE_BONE_MASS : ℤ := 88
def TYPE_PULSE_WAVE_VELOCITY : ℤ := 91

end WithingsMeasure

/-- One wire measurement: integer mantissa, type tag, power-of-ten exponent. -/
structure WithingsMeasure where
  value : ℤ
  type : ℤ
  unit : ℤ
deriving DecidableEq

/-- Decoding rule: value * 10^unit (WithingsMeasure.get_value). -/
def WithingsMeasure.get_value (m : WithingsMeasure) : ℚ :=
  (m.value : ℚ) * (10 : ℚ) ^ m.unit

/-- A measure group: one timestamp, one category, a list of measurements. -/
structure WithingsMeasureGroup where
  grpid : ℤ
  attrib : ℤ
  date : ℤ
  category : ℤ
  measures : List WithingsMeasure
deriving DecidableEq

namespace WithingsMeasureGroup

/-- The shared loop body of every typed accessor: scan the measures, return
the first one of the wanted type, rounded to 2 decimal places, else None. -/
def typedValue (t : ℤ) : List WithingsMeasure → Option ℚ
  | [] => none
  | m :: rest => if m.type = t then some (pyRound 2 m.get_value) else typedValue t rest

def get_weight (g : WithingsMeasureGroup) : Option ℚ :=
  typedValue WithingsMeasure.TYPE_WEIGHT g.measures

def get_height (g : WithingsMeasureGroup) : Option ℚ :=
  typedValue WithingsMeasure.TYPE_HEIGHT g.measures

def get_fat_free_mass (g : WithingsMeasureGroup) : Option ℚ :=
  typedValue WithingsMeasure.TYPE_FAT_FREE_MASS g.measures

def get_fat_ratio (g : WithingsMeasureGroup) : Option ℚ :=
  typedValue WithingsMeasure.TYPE_FAT_RATIO g.measures

def get_fat_mass_weight (g : WithingsMeasureGroup) : Option ℚ :=
  typedValue WithingsMeasure.TYPE_FAT_MASS_WEIGHT g.measures

def get_diastolic_blood_pressure (g : WithingsMeasureGroup) : Option ℚ :=
  typedValue WithingsMeasure.TYPE_DIASTOLIC_BLOOD_PRESSURE g.measures

def get_systolic_blood_pressure (g : WithingsMeasureGroup) : Option ℚ :=
  typedValue WithingsMeasure.TYPE_SYSTOLIC_BLOOD_PRESSURE g.measures

def get_heart_pulse (g : WithingsMeasureGroup) : Option ℚ :=
  typedValue WithingsMeasure.TYPE_HEART_PULSE g.measures

def get_temperature (g : WithingsMeasureGroup) : Option ℚ :=
  typedValue WithingsMeasure.TYPE_TEMPERATURE g.measures

def get_sp02 (g : WithingsMeasureGroup) : Option ℚ :=
  typedValue WithingsMeasure.TYPE_SP02 g.measures

def get_body_temperature (g : WithingsMeasureGroup) : Option ℚ :=
  typedValue WithingsMeasure.TYPE_BODY_TEMPERATURE g.measures

def get_skin_temperature (g : WithingsMeasureGroup) : Option ℚ :=
  typedValue WithingsMeasure.TYPE_SKIN_TEMPERATURE g.measures

def get_muscle_mass (g : WithingsMeasureGroup) : Option ℚ :=
  typedValue WithingsMeasure.TYPE_MUSCLE_MASS g.measures

def get_hydration (g : WithingsMeasureGroup) : Option ℚ :=
  typedValue WithingsMeasure.TYPE_HYDRATION g.measures

def get_bone_mass (g : WithingsMeasureGroup) : Option ℚ :=
  typedValue WithingsMeasure.TYPE_BONE_MASS g.measures

def get_pulse_wave_velocity (g : WithingsMeasureGroup) : Option ℚ :=
  typedValue WithingsMeasure.TYPE_PULSE_WAVE_VELOCITY g.measures

end WithingsMeasureGroup

/-- Response of the measurement endpoint: a status and the decoded groups.
Timestamps are compared through datetime.fromtimestamp, which is strictly
monotone in the integer timestamp, so group dates stand in for datetimes. -/
structure MeasResponse where
  status : ℤ
  measuregrps : List WithingsMeasureGroup
deriving DecidableEq

namespace WithingsAccount

/-- Loop state of WithingsAccount.get_height: the fields self.height and
self.height_timestamp. -/
structure HeightState where
  height : Option ℚ
  height_timestamp : Option ℤ
deriving DecidableEq

/-- One iteration of the get_height scan, translated branch for branch: note
that the branch taken when self.height is already set never updates
self.height_timestamp. -/
def get_height_step (st : HeightState) (grp : WithingsMeasureGroup) : HeightState :=
  match st.height with
  | some _ =>
      match st.height_timestamp with
      | some ts =>
          if grp.date > ts then { st with height := grp.get_height } else st
      | none => st
  | none => { height := grp.get_height, height_timestamp := some grp.date }

/-- WithingsAccount.get_height: on success status scan all returned groups,
else leave self.height as None. -/
def get_height (resp : MeasResponse) : Option ℚ :=
  if resp.status = 0 then
    (resp.measuregrps.foldl get_height_step { height := none, height_timestamp := none }).height
  else none

end WithingsAccount

/-! SyncPlanner, from src/withings_sync/sync.py (prepare_sync_data). -/

/-- The group_data dict built per group in prepare_sync_data.  The outer
Option of a field records whether the dict key is present at all; the inner
Option is the Python value, which may itself be None. -/
structure GroupData where
  date_time : ℤ
  type : String
  raw_data : List WithingsMeasure
  height : Option (Option ℚ) := none
  weight : Option (Option ℚ) := none
  fat_ratio : Option (Option ℚ) := none
  muscle_mass : Option (Option ℚ) := none
  hydration : Option (Option ℚ) := none
  percent_hydration : Option (Option ℚ) := none
  bone_mass : Option (Option ℚ) := none
  pulse_wave_velocity : Option (Option ℚ) := none
  heart_pulse : Option (Option ℚ) := none
  bmi : Option (Option ℚ) := none
  diastolic_blood_pressure : Option (Option ℚ) := none
  systolic_blood_pressure : Option (Option ℚ) := none
deriving DecidableEq

/-- Python Option.get with default 0, used only under a truthiness guard. -/
def optVal (x : Option ℚ) : ℚ := x.getD 0

/-- The per-group body of the prepare_sync_data loop: the default group_data,
then the weight branch, then the blood pressure branch. -/
def buildGroupData (height : Option ℚ) (group : WithingsMeasureGroup) : GroupData :=
  let group_data : GroupData :=
    { date_time := group.date, type := "None", raw_data := group.measures }
  let group_data :=
    if truthy group.get_weight then
      let weight := group.get_weight
      let hydration := group.get_hydration
      let bmi : Option ℚ :=
        if truthy height && truthy weight then
          some (pyRound 1 (optVal weight / optVal height ^ 2))
        else none
      let percent_hydration : Option ℚ :=
        if truthy hydration && truthy weight then
          some (pyRound 2 (optVal hydration * 100 / optVal weight))
        else none
      { group_data with
          height := some height
          weight := some group.get_weight
          fat_ratio := some group.get_fat_ratio
          muscle_mass := some group.get_muscle_mass
          hydration := some group.get_hydration
          percent_hydration := some percent_hydration
          bone_mass := some group.get_bone_mass
          pulse_wave_velocity := some group.get_pulse_wave_velocity
          heart_pulse := some group.get_heart_pulse
          bmi := some bmi
          raw_data := group.measures
          type := "weight" }
    else group_data
  let group_data :=
    if truthy group.get_diastolic_blood_pressure then
      { group_data with
          diastolic_blood_pressure := some group.get_diastolic_blood_pressure
          systolic_blood_pressure := some group.get_systolic_blood_pressure
          heart_pulse := some group.get_heart_pulse
          raw_data := group.measures
          type := "blood_pressure" }
    else group_data
  group_data

/-- One iteration of the prepare_sync_data loop over groups.  The dict value
type Option GroupData records the transient empty dict: none stands for the
literal empty dict assigned at sync_dict[dt] = before classification. -/
def prepare_step (height : Option ℚ) (d : List (ℤ × Option GroupData))
    (group : WithingsMeasureGroup) : List (ℤ × Option GroupData) :=
  let dt := group.date
  let group_data := buildGroupData height group
  let d := if ¬ dictContains d dt then dictSet d dt none else d
  if group_data.weight = none ∧ group_data.diastolic_blood_pressure = none then
    dictDel d dt
  else
    dictSet d dt (some group_data)

/-- The sync_dict after the whole group loop. -/
def syncDict (height : Option ℚ) (groups : List WithingsMeasureGroup) :
    List (ℤ × Option GroupData) :=
  groups.foldl (prepare_step height) []

/-- The final scan of prepare_sync_data over sync_dict values, computing
last_measurement_type and last_date_time. -/
def lastScan (acc : Option String × Option ℤ) (group_data : GroupData) :
    Option String × Option ℤ :=
  match acc.2 with
  | none => (some group_data.type, some group_data.date_time)
  | some t =>
      if group_data.date_time > t then (some group_data.type, some group_data.date_time)
      else acc

/-- prepare_sync_data: returns (last_measurement_type, last_date_time,
sync_data).  The filterMap strips the dict layer; the loop never leaves a
transient empty dict behind, which the C2 theorem makes precise. -/
def prepare_sync_data (height : Option ℚ) (groups : List WithingsMeasureGroup) :
    Option String × Option ℤ × List GroupData :=
  let sd := syncDict height groups
  let sync_data := sd.filterMap (fun p => p.2)
  let scan := sync_data.foldl lastScan (none, none)
  (scan.1, scan.2, sync_data)

/-! CredentialStore, from src/withings_sync/withings2.py (WithingsConfig). -/

/-- A JSON scalar value of the credential document. -/
inductive CVal where
  | str (s : String)
  | int (n : ℤ)
  | null
deriving DecidableEq

/-- The config template WithingsConfig._config_template, in source order. -/
def config_template : List (String × CVal) :=
  [("callback_url", CVal.str "https://jaroslawhartman.github.io/withings-sync/contrib/withings.html"),
   ("client_id", CVal.str "183e03e1f363110b3551f96765c98c10e8f1aa647a37067a1cb64bbbaf491626"),
   ("consumer_secret", CVal.str "a75d655c985d9e6391df1514c16719ef7bd69fa7c5d3fd0eac2e2b0ed48f1765"),
   ("access_token", CVal.str ""),
   ("authentification_code", CVal.str ""),
   ("refresh_token", CVal.str ""),
   ("userid", CVal.str ""),
   ("last_update_garmin", CVal.null),
   ("last_update_trainerroad", CVal.null)]

/-- The schema-merge step of WithingsConfig init on the load path: when the
loaded key set differs from the template key set, deepcopy the template and
dict.update it with the loaded document, then save; otherwise keep the
loaded document as is. -/
def mergeLoadedConfig (loaded : List (String × CVal)) : List (String × CVal) :=
  if keySetEq loaded config_template then loaded
  else pyDictUpdate config_template loaded

/-- Insert an entry into a key-sorted list (helper for the sorted dump). -/
def insertByKey (p : String × CVal) : List (String × CVal) → List (String × CVal)
  | [] => [p]
  | q :: rest => if p.1 ≤ q.1 then p :: q :: rest else q :: insertByKey p rest

/-- The persisted form of WithingsConfig.save: json.dump with sort_keys=True
serialises entries in key order, so the persisted bytes are determined by
the key-sorted entry list. -/
def sortByKey (d : List (String × CVal)) : List (String × CVal) :=
  d.foldr insertByKey []

/-! TokenSession, from src/withings_sync/withings2.py
(WithingsOAuth2._update_access_token). -/

/-- The body object of a token endpoint response. -/
structure TokenBody where
  access_token : Option String
  refresh_token : Option String
  userid : Option ℤ
deriving DecidableEq

/-- A token endpoint response: resp.get leaves both fields optional. -/
structure TokenResponse where
  status : Option ℤ
  body : Option TokenBody
deriving DecidableEq

/-- The auth fields of the credential document written by token exchanges. -/
structure AuthFields where
  access_token : Option String
  refresh_token : Option String
  userid : Option String
deriving DecidableEq

/-- Python str() of an optional integer, as applied to body.get of userid. -/
def pyStr : Option ℤ → String
  | none => "None"
  | some n => toString n

/-- Outcome of one Python call: a normal return or a raised exception. -/
inductive TokenOutcome where
  | raised (msg : String)
  | ok (cfg : AuthFields)
deriving DecidableEq

/-- Result of one _update_access_token call: whether the error branch logged,
and either the updated auth fields or a raised exception. -/
structure TokenExchangeResult where
  logged_error : Bool
  outcome : TokenOutcome
deriving DecidableEq

/-- WithingsOAuth2._update_access_token: a non-zero (or missing) status only
logs; the body fields are then written unconditionally, which raises
AttributeError when the response has no body object. -/
def update_access_token (cfg : AuthFields) (resp : TokenResponse) :
    TokenExchangeResult :=
  let status := resp.status
  let body := resp.body
  let logged_error := decide (status ≠ some 0)
  match body with
  | none => { logged_error := logged_error, outcome := TokenOutcome.raised "AttributeError" }
  | some b =>
      { logged_error := logged_error,
        outcome := TokenOutcome.ok
          { cfg with
              access_token := b.access_token
              refresh_token := b.refresh_token
              userid := some (pyStr b.userid) } }

/-! Orchestrator, from src/withings_sync/sync.py (main). -/

/-- The command line arguments main consults. -/
structure SyncArgs where
  from_date : Option ℤ
  to_date : ℤ
  trainerroad_username : Bool
  garmin_username : Bool
  no_upload : Bool
deriving DecidableEq

/-- The two watermark fields of the credential document. -/
structure Watermarks where
  last_update_garmin : Option ℤ
  last_update_trainerroad : Option ℤ
deriving DecidableEq

/-- The external world of one run: the height query response, the result of
the measurement query, todays midnight timestamp, and the success of each
delivery attempt. -/
structure MainEnv where
  height_resp : MeasResponse
  meas_groups : Option (List WithingsMeasureGroup)
  today : ℤ
  trainerroad_ok : Bool
  garmin_weight_ok : Bool
  garmin_bp_ok : Bool
deriving DecidableEq

/-- Observable trace of one main run: return value, final watermark fields,
every persisted watermark snapshot in order, and which collaborators ran. -/
structure MainTrace where
  ret : ℤ
  config : Watermarks
  saves : List Watermarks
  start_date : ℤ
  end_date : ℤ
  fit_generated : Bool
  json_generated : Bool
  trainerroad_called : Bool
  garmin_upload_attempts : ℕ
deriving DecidableEq

namespace SyncMain

/-- sync.py main from the account bootstrap on: window computation, height
fetch, measurement fetch, empty-result bailout, planning, and the upload /
watermark / save sequence.  Network calls are abstracted by MainEnv; the
bootstrap save inside WithingsAccount init is the first saves entry. -/
def main (cfg : Watermarks) (args : SyncArgs) (env : MainEnv) : MainTrace :=
  let saves : List Watermarks := [cfg]
  let start_date : ℤ :=
    match args.from_date with
    | none =>
        match cfg.last_update_garmin with
        | some t => t + 1
        | none => env.today
    | some d => d
  let end_date : ℤ := args.to_date + 86399
  let height := WithingsAccount.get_height env.height_resp
  let groups := env.meas_groups
  match groups with
  | none =>
      { ret := -1, config := cfg, saves := saves, start_date := start_date,
        end_date := end_date, fit_generated := false, json_generated := false,
        trainerroad_called := false, garmin_upload_attempts := 0 }
  | some gs =>
      if gs.length = 0 then
        { ret := -1, config := cfg, saves := saves, start_date := start_date,
          end_date := end_date, fit_generated := false, json_generated := false,
          trainerroad_called := false, garmin_upload_attempts := 0 }
      else
        let planned := prepare_sync_data height gs
        let syncdata := planned.2.2
        let fit_data_weight : Bool :=
          (syncdata.filter (fun x => x.type = "weight")).length > 0
        let fit_data_bp : Bool :=
          (syncdata.filter (fun x => x.type = "blood_pressure")).length > 0
        if args.no_upload then
          { ret := 0, config := cfg, saves := saves ++ [cfg],
            start_date := start_date, end_date := end_date,
            fit_generated := true, json_generated := true,
            trainerroad_called := false, garmin_upload_attempts := 0 }
        else
          let only_weight_entries := syncdata.filter (fun x => x.type = "weight")
          let last_weight_exists : Bool := only_weight_entries.length > 0
          let tr_called : Bool := args.trainerroad_username && last_weight_exists
          let cfg1 :=
            if tr_called && env.trainerroad_ok then
              { cfg with last_update_garmin := some end_date }
            else cfg
          let garmin_branch : Bool :=
            args.garmin_username && (fit_data_weight || fit_data_bp)
          let cfg2 :=
            if garmin_branch && fit_data_weight && env.garmin_weight_ok then
              { cfg1 with last_update_garmin := some end_date }
            else cfg1
          let cfg3 :=
            if garmin_branch && fit_data_bp && env.garmin_bp_ok then
              { cfg2 with last_update_garmin := some end_date }
            else cfg2
          let attempts : ℕ :=
            if garmin_branch then
              (if fit_data_weight then 1 else 0) + (if fit_data_bp then 1 else 0)
            else 0
          { ret := 0, config := cfg3, saves := saves ++ [cfg3],
            start_date := start_date, end_date := end_date,
            fit_generated := true, json_generated := true,
            trainerroad_called := tr_called, garmin_upload_attempts := attempts }

end SyncMain

/-! Claim theorems. -/

theorem typedValue_eq_find (t : ℤ) (ms : List WithingsMeasure) :
    WithingsMeasureGroup.typedValue t ms =
      (ms.find? (fun m => m.type = t)).map (fun m => pyRound 2 m.get_value) := by
  induction ms with
  | nil => rfl
  | cons m rest ih =>
    by_cases hm : m.type = t <;>
      simp [WithingsMeasureGroup.typedValue, List.find?, hm, ih]

/-- C8: every measurement decodes as raw_value * 10^unit, and every public
typed accessor of a measure group returns the decoded value of the first
measurement of its type, rounded to 2 decimal places (None when absent). -/
theorem measure_decoding_and_accessors :
    (∀ m : WithingsMeasure, m.get_value = (m.value : ℚ) * (10 : ℚ) ^ m.unit) ∧
    (∀ g : WithingsMeasureGroup,
      g.get_weight = (g.measures.find? (fun m => m.type = WithingsMeasure.TYPE_WEIGHT)).map
        (fun m => pyRound 2 m.get_value) ∧
      g.get_height = (g.measures.find? (fun m => m.type = WithingsMeasure.TYPE_HEIGHT)).map
        (fun m => pyRound 2 m.get_value) ∧
      g.get_fat_free_mass = (g.measures.find? (fun m => m.type = WithingsMeasure.TYPE_FAT_FREE_MASS)).map
        (fun m => pyRound 2 m.get_value) ∧
      g.get_fat_ratio = (g.measures.find? (fun m => m.type = WithingsMeasure.TYPE_FAT_RATIO)).map
        (fun m => pyRound 2 m.get_value) ∧
      g.get_fat_mass_weight = (g.measures.find? (fun m => m.type = WithingsMeasure.TYPE_FAT_MASS_WEIGHT)).map
        (fun m => pyRound 2 m.get_value) ∧
      g.get_diastolic_blood_pressure = (g.measures.find? (fun m => m.type = WithingsMeasure.TYPE_DIASTOLIC_BLOOD_PRESSURE)).map
        (fun m => pyRound 2 m.get_value) ∧
      g.get_systolic_blood_pressure = (g.measures.find? (fun m => m.type = WithingsMeasure.TYPE_SYSTOLIC_BLOOD_PRESSURE)).map
        (fun m => pyRound 2 m.get_value) ∧
      g.get_heart_pulse = (g.measures.find? (fun m => m.type = WithingsMeasure.TYPE_HEART_PULSE)).map
        (fun m => pyRound 2 m.get_value) ∧
      g.get_temperature = (g.measures.find? (fun m => m.type = WithingsMeasure.TYPE_TEMPERATURE)).map
        (fun m => pyRound 2 m.get_value) ∧
      g.get_sp02 = (g.measures.find? (fun m => m.type = WithingsMeasure.TYPE_SP02)).map
        (fun m => pyRound 2 m.get_value) ∧
      g.get_body_temperature = (g.measures.find? (fun m => m.type = WithingsMeasure.TYPE_BODY_TEMPERATURE)).map
        (fun m => pyRound 2 m.get_value) ∧
      g.get_skin_temperature = (g.measures.find? (fun m => m.type = WithingsMeasure.TYPE_SKIN_TEMPERATURE)).map
        (fun m => pyRound 2 m.get_value) ∧
      g.get_muscle_mass = (g.measures.find? (fun m => m.type = WithingsMeasure.TYPE_MUSCLE_MASS)).map
        (fun m => pyRound 2 m.get_value) ∧
      g.get_hydration = (g.measures.find? (fun m => m.type = WithingsMeasure.TYPE_HYDRATION)).map
        (fun m => pyRound 2 m.get_value) ∧
      g.get_bone_mass = (g.measures.find? (fun m => m.type = WithingsMeasure.TYPE_BONE_MASS)).map
        (fun m => pyRound 2 m.get_value) ∧
      g.get_pulse_wave_velocity = (g.measures.find? (fun m => m.type = WithingsMeasure.TYPE_PULSE_WAVE_VELOCITY)).map
        (fun m => pyRound 2 m.get_value)) :=
  ⟨fun _ => rfl, fun g =>
    ⟨typedValue_eq_find _ g.measures, typedValue_eq_find _ _, typedValue_eq_find _ _,
     typedValue_eq_find _ _, typedValue_eq_find _ _, typedValue_eq_find _ _,
     typedValue_eq_find _ _, typedValue_eq_find _ _, typedValue_eq_find _ _,
     typedValue_eq_find _ _, typedValue_eq_find _ _, typedValue_eq_find _ _,
     typedValue_eq_find _ _, typedValue_eq_find _ _, typedValue_eq_find _ _,
     typedValue_eq_find _ _⟩⟩

/-- C6: a token endpoint response carrying a body and a non-zero status is
logged as an error, raises nothing, and its body fields are still written
into the credential document. -/
theorem token_error_logged_not_raised (cfg : AuthFields) (resp : TokenResponse)
    (b : TokenBody) (hb : resp.body = some b) (hs : resp.status ≠ some 0) :
    update_access_token cfg resp =
      { logged_error := true,
        outcome := TokenOutcome.ok
          { access_token := b.access_token,
            refresh_token := b.refresh_token,
            userid := some (pyStr b.userid) } } := by
  simp [update_access_token, hb, hs]

/-- Witness for C6 at a concrete error response with status 503. -/
theorem token_error_logged_not_raised_witness :
    update_access_token
      { access_token := some "old", refresh_token := some "old", userid := some "1" }
      { status := some 503,
        body := some { access_token := some "a", refresh_token := some "r", userid := some 7 } } =
      { logged_error := true,
        outcome := TokenOutcome.ok
          { access_token := some "a", refresh_token := some "r",
            userid := some (pyStr (some 7)) } } :=
  token_error_logged_not_raised _ _ _ rfl (by decide)

theorem truthy_none : truthy none = false := rfl

theorem truthy_some_zero : truthy (some 0) = false := by
  simp [truthy]

theorem truthy_some_ne_zero (x : ℚ) (h : x ≠ 0) : truthy (some x) = true := by
  simp [truthy, h]

theorem roundHalfEven_intCast (n : ℤ) : roundHalfEven (n : ℚ) = n := by
  unfold roundHalfEven
  norm_num

theorem pyRound_eq_self (n : ℕ) (q : ℚ) (m : ℤ) (h : q * 10 ^ n = (m : ℚ)) :
    pyRound n q = q := by
  unfold pyRound
  rw [h, roundHalfEven_intCast]
  rw [div_eq_iff (by positivity : ((10 : ℚ) ^ n) ≠ 0)]
  exact h.symm

/-- C1 (code evaluated at a failing input): with height groups at timestamps
1, 3 and 2, the scan returns the height of the timestamp-2 group (1.8), not
that of the group with the latest timestamp 3 (1.7): height_timestamp is
never advanced after the first group, so every later group with a timestamp
above the first one overwrites the height. -/
theorem get_height_not_latest_timestamp :
    WithingsAccount.get_height
      { status := 0,
        measuregrps :=
          [{ grpid := 11, attrib := 0, date := 1, category := 1,
             measures := [{ value := 160, type := 4, unit := -2 }] },
           { grpid := 12, attrib := 0, date := 3, category := 1,
             measures := [{ value := 170, type := 4, unit := -2 }] },
           { grpid := 13, attrib := 0, date := 2, category := 1,
             measures := [{ value := 180, type := 4, unit := -2 }] }] }
      = some (9/5) ∧
    WithingsMeasureGroup.get_height
      { grpid := 12, attrib := 0, date := 3, category := 1,
        measures := [{ value := 170, type := 4, unit := -2 }] } = some (17/10) ∧
    ((9 : ℚ)/5) ≠ 17/10 := by
  refine ⟨?_, ?_, by norm_num⟩
  · show WithingsAccount.get_height _ = _
    simp only [WithingsAccount.get_height, WithingsAccount.get_height_step,
      WithingsMeasureGroup.get_height, WithingsMeasureGroup.typedValue,
      WithingsMeasure.TYPE_HEIGHT, WithingsMeasure.get_value, List.foldl]
    norm_num
    exact pyRound_eq_self 2 _ 180 (by norm_num)
  · show WithingsMeasureGroup.get_height _ = _
    simp only [WithingsMeasureGroup.get_height, WithingsMeasureGroup.typedValue,
      WithingsMeasure.TYPE_HEIGHT, WithingsMeasure.get_value]
    norm_num
    exact pyRound_eq_self 2 _ 170 (by norm_num)

/-- C10: presence is decided by truthiness of the decoded value.  A weight
measurement decoding to 0.0 produces no weight key and no weight
classification; a diastolic measurement decoding to 0.0 produces no blood
pressure key or classification; a group with both decoding to 0.0 is
removed from the record set at its timestamp. -/
theorem zero_decoded_values_excluded :
    (∀ (height : Option ℚ) (g : WithingsMeasureGroup), g.get_weight = some 0 →
        (buildGroupData height g).weight = none ∧
        (buildGroupData height g).type ≠ "weight") ∧
    (∀ (height : Option ℚ) (g : WithingsMeasureGroup),
        g.get_diastolic_blood_pressure = some 0 →
        (buildGroupData height g).diastolic_blood_pressure = none ∧
        (buildGroupData height g).type ≠ "blood_pressure") ∧
    (∀ (height : Option ℚ) (g : WithingsMeasureGroup)
        (d : List (ℤ × Option GroupData)),
        g.get_weight = some 0 → g.get_diastolic_blood_pressure = some 0 →
        dictLookup (prepare_step height d g) g.date = none) := by
  have hw : ∀ (height : Option ℚ) (g : WithingsMeasureGroup), g.get_weight = some 0 →
      (buildGroupData height g).weight = none ∧
      (buildGroupData height g).type ≠ "weight" := by
    intro height g h
    unfold buildGroupData
    simp only [h, truthy_some_zero, Bool.false_eq_true, if_false]
    split <;> simp
  have hd : ∀ (height : Option ℚ) (g : WithingsMeasureGroup),
      g.get_diastolic_blood_pressure = some 0 →
      (buildGroupData height g).diastolic_blood_pressure = none ∧
      (buildGroupData height g).type ≠ "blood_pressure" := by
    intro height g h
    unfold buildGroupData
    simp only [h, truthy_some_zero, Bool.false_eq_true, if_false]
    split <;> simp
  refine ⟨hw, hd, ?_⟩
  intro height g d hweight hdias
  have h1 := (hw height g hweight).1
  have h2 := (hd height g hdias).1
  unfold prepare_step
  simp only [h1, h2]
  simp [dictLookup_del_self]

theorem prepare_step_lookup_other (height : Option ℚ)
    (d : List (ℤ × Option GroupData)) (g : WithingsMeasureGroup) (k : ℤ)
    (h : k ≠ g.date) :
    dictLookup (prepare_step height d g) k = dictLookup d k := by
  unfold prepare_step
  by_cases hc : dictContains d g.date = true
  · simp only [hc]
    split
    · simp [dictLookup_del_other _ _ _ h]
    · simp [dictLookup_set_other _ _ _ _ h]
  · simp only [hc, Bool.false_eq_true, not_false_eq_true, if_true]
    split
    · rw [dictLookup_del_other _ _ _ h, dictLookup_set_other _ _ _ _ h]
    · rw [dictLookup_set_other _ _ _ _ h, dictLookup_set_other _ _ _ _ h]

theorem prepare_step_lookup_self (height : Option ℚ)
    (d : List (ℤ × Option GroupData)) (g : WithingsMeasureGroup) :
    dictLookup (prepare_step height d g) g.date =
      if (buildGroupData height g).weight = none ∧
         (buildGroupData height g).diastolic_blood_pressure = none
      then none
      else some (some (buildGroupData height g)) := by
  unfold prepare_step
  by_cases hcond : (buildGroupData height g).weight = none ∧
      (buildGroupData height g).diastolic_blood_pressure = none
  · simp only [if_pos hcond]
    exact dictLookup_del_self _ _
  · simp only [if_neg hcond]
    exact dictLookup_set_self _ _ _

theorem syncDict_foldl_lookup (height : Option ℚ)
    (groups : List WithingsMeasureGroup) (d : List (ℤ × Option GroupData)) (dt : ℤ) :
    dictLookup (groups.foldl (prepare_step height) d) dt =
      match (groups.filter (fun g => g.date = dt)).getLast? with
      | none => dictLookup d dt
      | some g =>
          if (buildGroupData height g).weight = none ∧
             (buildGroupData height g).diastolic_blood_pressure = none
          then none
          else some (some (buildGroupData height g)) := by
  induction groups generalizing d with
  | nil => simp
  | cons g gs ih =>
    rw [List.foldl_cons, ih (prepare_step height d g)]
    by_cases hdt : g.date = dt
    · rw [List.filter_cons_of_pos (by simp [hdt])]
      rcases hfe : gs.filter (fun g => g.date = dt) with _ | ⟨e, es⟩
      · simp only [hfe]
        show dictLookup (prepare_step height d g) dt = _
        subst hdt
        rw [prepare_step_lookup_self height d g]
        rfl
      · simp only [hfe, List.getLast?_cons_cons, List.getLast?_cons, Option.getD_some]
    · rw [List.filter_cons_of_neg (by simp [hdt])]
      rcases hfe : gs.filter (fun g => g.date = dt) with _ | ⟨e, es⟩
      · simp only [hfe]
        exact prepare_step_lookup_other height d g dt (fun he => hdt he.symm)
      · simp only [hfe, List.getLast?_cons, Option.getD_some]

/-- C2: per timestamp the final record set keeps exactly the record of the
last group processed at that timestamp, as a whole: a later group sharing a
timestamp fully replaces the earlier record (and removes it when the later
group is itself unclassifiable), so at most one record per timestamp
remains. -/
theorem prepare_sync_data_last_write_wins (height : Option ℚ)
    (groups : List WithingsMeasureGroup) (dt : ℤ) :
    dictLookup (syncDict height groups) dt =
      match (groups.filter (fun g => g.date = dt)).getLast? with
      | none => none
      | some g =>
          if (buildGroupData height g).weight = none ∧
             (buildGroupData height g).diastolic_blood_pressure = none
          then none
          else some (some (buildGroupData height g)) := by
  have h := syncDict_foldl_lookup height groups [] dt
  unfold syncDict
  rw [h]
  rcases (groups.filter (fun g => g.date = dt)).getLast? with _ | g <;> rfl

/-- C3: when the measurement query yields None or an empty group list, main
returns the sentinel -1, leaves both watermark fields untouched, persists
nothing beyond the bootstrap snapshot (which carries the unchanged
watermarks), and calls no exporter or uploader. -/
theorem main_empty_measurements (cfg : Watermarks) (args : SyncArgs) (env : MainEnv)
    (h : env.meas_groups = none ∨ env.meas_groups = some []) :
    (SyncMain.main cfg args env).ret = -1 ∧
    (SyncMain.main cfg args env).config = cfg ∧
    (SyncMain.main cfg args env).saves = [cfg] ∧
    (SyncMain.main cfg args env).fit_generated = false ∧
    (SyncMain.main cfg args env).json_generated = false ∧
    (SyncMain.main cfg args env).trainerroad_called = false ∧
    (SyncMain.main cfg args env).garmin_upload_attempts = 0 := by
  rcases h with h | h <;> simp [SyncMain.main, h]

/-- Witness for C3 at a concrete run with an empty group list. -/
theorem main_empty_measurements_witness :
    (SyncMain.main { last_update_garmin := some 5, last_update_trainerroad := none }
        { from_date := none, to_date := 0, trainerroad_username := true,
          garmin_username := true, no_upload := false }
        { height_resp := { status := 0, measuregrps := [] }, meas_groups := some [],
          today := 0, trainerroad_ok := true, garmin_weight_ok := true,
          garmin_bp_ok := true }).ret = -1 ∧
    (SyncMain.main { last_update_garmin := some 5, last_update_trainerroad := none }
        { from_date := none, to_date := 0, trainerroad_username := true,
          garmin_username := true, no_upload := false }
        { height_resp := { status := 0, measuregrps := [] }, meas_groups := some [],
          today := 0, trainerroad_ok := true, garmin_weight_ok := true,
          garmin_bp_ok := true }).config =
      { last_update_garmin := some 5, last_update_trainerroad := none } ∧
    (SyncMain.main { last_update_garmin := some 5, last_update_trainerroad := none }
        { from_date := none, to_date := 0, trainerroad_username := true,
          garmin_username := true, no_upload := false }
        { height_resp := { status := 0, measuregrps := [] }, meas_groups := some [],
          today := 0, trainerroad_ok := true, garmin_weight_ok := true,
          garmin_bp_ok := true }).saves =
      [{ last_update_garmin := some 5, last_update_trainerroad := none }] ∧
    (SyncMain.main { last_update_garmin := some 5, last_update_trainerroad := none }
        { from_date := none, to_date := 0, trainerroad_username := true,
          garmin_username := true, no_upload := false }
        { height_resp := { status := 0, measuregrps := [] }, meas_groups := some [],
          today := 0, trainerroad_ok := true, garmin_weight_ok := true,
          garmin_bp_ok := true }).fit_generated = false ∧
    (SyncMain.main { last_update_garmin := some 5, last_update_trainerroad := none }
        { from_date := none, to_date := 0, trainerroad_username := true,
          garmin_username := true, no_upload := false }
        { height_resp := { status := 0, measuregrps := [] }, meas_groups := some [],
          today := 0, trainerroad_ok := true, garmin_weight_ok := true,
          garmin_bp_ok := true }).json_generated = false ∧
    (SyncMain.main { last_update_garmin := some 5, last_update_trainerroad := none }
        { from_date := none, to_date := 0, trainerroad_username := true,
          garmin_username := true, no_upload := false }
        { height_resp := { status := 0, measuregrps := [] }, meas_groups := some [],
          today := 0, trainerroad_ok := true, garmin_weight_ok := true,
          garmin_bp_ok := true }).trainerroad_called = false ∧
    (SyncMain.main { last_update_garmin := some 5, last_update_trainerroad := none }
        { from_date := none, to_date := 0, trainerroad_username := true,
          garmin_username := true, no_upload := false }
        { height_resp := { status := 0, measuregrps := [] }, meas_groups := some [],
          today := 0, trainerroad_ok := true, garmin_weight_ok := true,
          garmin_bp_ok := true }).garmin_upload_attempts = 0 :=
  main_empty_measurements _ _ _ (Or.inr rfl)

theorem main_trainerroad_branch (cfg : Watermarks) (args : SyncArgs) (env : MainEnv)
    (gs : List WithingsMeasureGroup)
    (htru : args.trainerroad_username = true) (hnou : args.no_upload = false)
    (hgu : args.garmin_username = false)
    (hgs : env.meas_groups = some gs) (hne : gs.length ≠ 0)
    (htrok : env.trainerroad_ok = true)
    (hwe : 0 < ((prepare_sync_data (WithingsAccount.get_height env.height_resp)
        gs).2.2.filter (fun x => x.type = "weight")).length) :
    (SyncMain.main cfg args env).trainerroad_called = true ∧
    (SyncMain.main cfg args env).config.last_update_garmin =
      some (args.to_date + 86399) ∧
    (SyncMain.main cfg args env).config.last_update_trainerroad =
      cfg.last_update_trainerroad := by
  simp only [SyncMain.main, hgs, htru, hnou, hgu, htrok]
  simp [hne, hwe]

/-- C4 (code evaluated at the failing input): one weight group, TrainerRoad
username set, Garmin disabled, TrainerRoad delivery succeeds.  The run
advances last_update_garmin to end_date and leaves last_update_trainerroad
untouched: the TrainerRoad delivery writes the Garmin watermark field. -/
theorem trainerroad_success_sets_garmin_watermark :
    (SyncMain.main { last_update_garmin := none, last_update_trainerroad := none }
        { from_date := some 0, to_date := 0, trainerroad_username := true,
          garmin_username := false, no_upload := false }
        { height_resp := { status := 1, measuregrps := [] },
          meas_groups := some
            [{ grpid := 1, attrib := 0, date := 100, category := 1,
               measures := [{ value := 7000, type := 1, unit := -2 }] }],
          today := 0, trainerroad_ok := true, garmin_weight_ok := false,
          garmin_bp_ok := false }).trainerroad_called = true ∧
    (SyncMain.main { last_update_garmin := none, last_update_trainerroad := none }
        { from_date := some 0, to_date := 0, trainerroad_username := true,
          garmin_username := false, no_upload := false }
        { height_resp := { status := 1, measuregrps := [] },
          meas_groups := some
            [{ grpid := 1, attrib := 0, date := 100, category := 1,
               measures := [{ value := 7000, type := 1, unit := -2 }] }],
          today := 0, trainerroad_ok := true, garmin_weight_ok := false,
          garmin_bp_ok := false }).config.last_update_garmin = some 86399 ∧
    (SyncMain.main { last_update_garmin := none, last_update_trainerroad := none }
        { from_date := some 0, to_date := 0, trainerroad_username := true,
          garmin_username := false, no_upload := false }
        { height_resp := { status := 1, measuregrps := [] },
          meas_groups := some
            [{ grpid := 1, attrib := 0, date := 100, category := 1,
               measures := [{ value := 7000, type := 1, unit := -2 }] }],
          today := 0, trainerroad_ok := true, garmin_weight_ok := false,
          garmin_bp_ok := false }).config.last_update_trainerroad = none := by
  have h70 : pyRound 2 (70 : ℚ) = 70 := pyRound_eq_self 2 _ 7000 (by norm_num)
  have htw : truthy (WithingsMeasureGroup.get_weight
      { grpid := 1, attrib := 0, date := 100, category := 1,
        measures := [{ value := 7000, type := 1, unit := -2 }] }) = true := by
    simp only [WithingsMeasureGroup.get_weight, WithingsMeasureGroup.typedValue,
      WithingsMeasure.TYPE_WEIGHT, WithingsMeasure.get_value]
    norm_num [truthy, h70]
  have htd : truthy (WithingsMeasureGroup.get_diastolic_blood_pressure
      { grpid := 1, attrib := 0, date := 100, category := 1,
        measures := [{ value := 7000, type := 1, unit := -2 }] }) = false := rfl
  have hwe : 0 < ((prepare_sync_data
      (WithingsAccount.get_height { status := 1, measuregrps := [] })
      [{ grpid := 1, attrib := 0, date := 100, category := 1,
         measures := [{ value := 7000, type := 1, unit := -2 }] }]).2.2.filter
        (fun x => x.type = "weight")).length := by
    simp only [prepare_sync_data, syncDict, List.foldl, prepare_step,
      buildGroupData, htw, htd]
    simp [dictContains, dictSet, dictDel, dictReplace, dictLookup]
  have h := main_trainerroad_branch
    { last_update_garmin := none, last_update_trainerroad := none }
    { from_date := some 0, to_date := 0, trainerroad_username := true,
      garmin_username := false, no_upload := false }
    { height_resp := { status := 1, measuregrps := [] },
      meas_groups := some
        [{ grpid := 1, attrib := 0, date := 100, category := 1,
           measures := [{ value := 7000, type := 1, unit := -2 }] }],
      today := 0, trainerroad_ok := true, garmin_weight_ok := false,
      garmin_bp_ok := false }
    [{ grpid := 1, attrib := 0, date := 100, category := 1,
       measures := [{ value := 7000, type := 1, unit := -2 }] }]
    rfl rfl rfl rfl (by decide) rfl hwe
  exact ⟨h.1, h.2.1, h.2.2⟩

/-- C7 counterexample: a group with weight 70.0 kg and a hydration
measurement decoding to exactly 0.0.  Hydration is present, yet the built
record carries percent_hydration None rather than
round(hydration * 100 / weight, 2) = 0, because the branch tests Python
truthiness of the decoded value. -/
theorem percent_hydration_zero_counterexample :
    (buildGroupData (some (7/4))
      { grpid := 1, attrib := 0, date := 0, category := 1,
        measures := [{ value := 7000, type := 1, unit := -2 },
                     { value := 0, type := 77, unit := -2 }] }).percent_hydration =
      some none ∧
    (buildGroupData (some (7/4))
      { grpid := 1, attrib := 0, date := 0, category := 1,
        measures := [{ value := 7000, type := 1, unit := -2 },
                     { value := 0, type := 77, unit := -2 }] }).hydration =
      some (some 0) ∧
    (buildGroupData (some (7/4))
      { grpid := 1, attrib := 0, date := 0, category := 1,
        measures := [{ value := 7000, type := 1, unit := -2 },
                     { value := 0, type := 77, unit := -2 }] }).weight =
      some (some 70) ∧
    (some (none : Option ℚ) : Option (Option ℚ)) ≠
      some (some (pyRound 2 ((0 : ℚ) * 100 / 70))) := by
  have h0 : pyRound 2 (0 : ℚ) = 0 := pyRound_eq_self 2 _ 0 (by norm_num)
  have h70 : pyRound 2 (70 : ℚ) = 70 := pyRound_eq_self 2 _ 7000 (by norm_num)
  have hgw : WithingsMeasureGroup.get_weight
      { grpid := 1, attrib := 0, date := 0, category := 1,
        measures := [{ value := 7000, type := 1, unit := -2 },
                     { value := 0, type := 77, unit := -2 }] } = some 70 := by
    simp only [WithingsMeasureGroup.get_weight, WithingsMeasureGroup.typedValue,
      WithingsMeasure.TYPE_WEIGHT, WithingsMeasure.get_value]
    norm_num [h70]
  have hgh : WithingsMeasureGroup.get_hydration
      { grpid := 1, attrib := 0, date := 0, category := 1,
        measures := [{ value := 7000, type := 1, unit := -2 },
                     { value := 0, type := 77, unit := -2 }] } = some 0 := by
    simp only [WithingsMeasureGroup.get_hydration, WithingsMeasureGroup.typedValue,
      WithingsMeasure.TYPE_HYDRATION, WithingsMeasure.get_value]
    norm_num [h0]
  have htw : truthy (WithingsMeasureGroup.get_weight
      { grpid := 1, attrib := 0, date := 0, category := 1,
        measures := [{ value := 7000, type := 1, unit := -2 },
                     { value := 0, type := 77, unit := -2 }] }) = true := by
    rw [hgw]; exact truthy_some_ne_zero 70 (by norm_num)
  have hth : truthy (WithingsMeasureGroup.get_hydration
      { grpid := 1, attrib := 0, date := 0, category := 1,
        measures := [{ value := 7000, type := 1, unit := -2 },
                     { value := 0, type := 77, unit := -2 }] }) = false := by
    rw [hgh]; exact truthy_some_zero
  have htd : truthy (WithingsMeasureGroup.get_diastolic_blood_pressure
      { grpid := 1, attrib := 0, date := 0, category := 1,
        measures := [{ value := 7000, type := 1, unit := -2 },
                     { value := 0, type := 77, unit := -2 }] }) = false := rfl
  have hpr : pyRound 2 ((0 : ℚ) * 100 / 70) = 0 := by
    rw [show ((0 : ℚ) * 100 / 70) = 0 by norm_num, h0]
  refine ⟨?_, ?_, ?_, ?_⟩
  · unfold buildGroupData
    simp [htw, hth, htd]
  · unfold buildGroupData
    simp [htw, htd, hgh]
  · unfold buildGroupData
    simp [htw, htd, hgw, truthy_some_ne_zero 70 (by norm_num)]
  · rw [hpr]
    simp

/-- C7 amended: for a group on the weight path, bmi equals
round(weight / height^2, 1) when height > 0 and weight > 0 are known, and is
None when height is absent; percent_hydration equals
round(hydration * 100 / weight, 2) when hydration is present and nonzero
and weight > 0, and is None when hydration is absent or decodes to zero. -/
theorem bmi_and_percent_hydration (height : Option ℚ) (group : WithingsMeasureGroup)
    (hw : truthy group.get_weight = true) :
    (∀ h w, height = some h → 0 < h → group.get_weight = some w → 0 < w →
      (buildGroupData height group).bmi = some (some (pyRound 1 (w / h ^ 2)))) ∧
    (height = none → (buildGroupData height group).bmi = some none) ∧
    (∀ hy w, group.get_hydration = some hy → hy ≠ 0 →
      group.get_weight = some w → 0 < w →
      (buildGroupData height group).percent_hydration =
        some (some (pyRound 2 (hy * 100 / w)))) ∧
    ((group.get_hydration = none ∨ group.get_hydration = some 0) →
      (buildGroupData height group).percent_hydration = some none) := by
  refine ⟨?_, ?_, ?_, ?_⟩
  · intro h w hh hhpos hgw hwpos
    unfold buildGroupData
    simp only [hw, hh, hgw, optVal]
    have hth : truthy (some h) = true := truthy_some_ne_zero h hhpos.ne'
    have htww : truthy (some w) = true := truthy_some_ne_zero w hwpos.ne'
    simp [hth, htww]
    split <;> simp
  · intro hh
    unfold buildGroupData
    simp only [hw, hh]
    simp [truthy_none]
    split <;> simp
  · intro hy w hhy hhyne hgw hwpos
    unfold buildGroupData
    simp only [hw, hhy, hgw, optVal]
    have hth : truthy (some hy) = true := truthy_some_ne_zero hy hhyne
    have htww : truthy (some w) = true := truthy_some_ne_zero w hwpos.ne'
    simp [hth, htww]
    split <;> simp
  · intro hh
    unfold buildGroupData
    rcases hh with hh | hh <;>
      · simp only [hw, hh]
        simp [truthy_none, truthy_some_zero]
        split <;> simp

/-- Witness for the amended C7 at weight 70.0 kg, hydration 35.0 kg and
height 1.75 m. -/
theorem bmi_and_percent_hydration_witness :
    (buildGroupData (some (7/4))
      { grpid := 2, attrib := 0, date := 0, category := 1,
        measures := [{ value := 7000, type := 1, unit := -2 },
                     { value := 3500, type := 77, unit := -2 }] }).bmi =
      some (some (pyRound 1 ((70 : ℚ) / (7/4) ^ 2))) ∧
    (buildGroupData (some (7/4))
      { grpid := 2, attrib := 0, date := 0, category := 1,
        measures := [{ value := 7000, type := 1, unit := -2 },
                     { value := 3500, type := 77, unit := -2 }] }).percent_hydration =
      some (some (pyRound 2 ((35 : ℚ) * 100 / 70))) := by
  have h70 : pyRound 2 (70 : ℚ) = 70 := pyRound_eq_self 2 _ 7000 (by norm_num)
  have h35 : pyRound 2 (35 : ℚ) = 35 := pyRound_eq_self 2 _ 3500 (by norm_num)
  have hgw : WithingsMeasureGroup.get_weight
      { grpid := 2, attrib := 0, date := 0, category := 1,
        measures := [{ value := 7000, type := 1, unit := -2 },
                     { value := 3500, type := 77, unit := -2 }] } = some 70 := by
    simp only [WithingsMeasureGroup.get_weight, WithingsMeasureGroup.typedValue,
      WithingsMeasure.TYPE_WEIGHT, WithingsMeasure.get_value]
    norm_num [h70]
  have hgh : WithingsMeasureGroup.get_hydration
      { grpid := 2, attrib := 0, date := 0, category := 1,
        measures := [{ value := 7000, type := 1, unit := -2 },
                     { value := 3500, type := 77, unit := -2 }] } = some 35 := by
    simp only [WithingsMeasureGroup.get_hydration, WithingsMeasureGroup.typedValue,
      WithingsMeasure.TYPE_HYDRATION, WithingsMeasure.get_value]
    norm_num [h35]
  have htw : truthy (WithingsMeasureGroup.get_weight
      { grpid := 2, attrib := 0, date := 0, category := 1,
        measures := [{ value := 7000, type := 1, unit := -2 },
                     { value := 3500, type := 77, unit := -2 }] }) = true := by
    rw [hgw]; exact truthy_some_ne_zero 70 (by norm_num)
  have hmain := bmi_and_percent_hydration (some (7/4))
    { grpid := 2, attrib := 0, date := 0, category := 1,
      measures := [{ value := 7000, type := 1, unit := -2 },
                   { value := 3500, type := 77, unit := -2 }] } htw
  exact ⟨hmain.1 (7/4) 70 rfl (by norm_num) hgw (by norm_num),
         hmain.2.2.1 35 70 hgh (by norm_num) hgw (by norm_num)⟩

section PyDictLemmas

variable {κ : Type} {ν : Type} [DecidableEq κ]

theorem dictContains_iff_mem (d : List (κ × ν)) (k : κ) :
    dictContains d k = true ↔ k ∈ dictKeys d := by
  induction d with
  | nil => simp [dictContains, dictKeys]
  | cons p rest ih =>
    by_cases hp : p.1 = k
    · simp [dictContains, dictKeys, hp]
    · have hk : ¬ k = p.1 := fun hh => hp hh.symm
      simp [dictContains, dictKeys, hp, hk] at ih ⊢
      exact ih

theorem dictContains_eq_isSome_lookup (d : List (κ × ν)) (k : κ) :
    dictContains d k = (dictLookup d k).isSome := by
  induction d with
  | nil => rfl
  | cons p rest ih =>
    by_cases hp : p.1 = k <;> simp [dictContains, dictLookup, hp, ih]

theorem dictLookup_eq_none_of_contains_false (d : List (κ × ν)) (k : κ)
    (h : dictContains d k = false) : dictLookup d k = none := by
  have := dictContains_eq_isSome_lookup d k
  rw [h] at this
  exact Option.not_isSome_iff_eq_none.mp (by simp [this.symm])

theorem keySetEq_contains (d e : List (κ × ν)) (h : keySetEq d e = true) (k : κ) :
    dictContains d k = dictContains e k := by
  unfold keySetEq at h
  rw [Bool.and_eq_true, List.all_eq_true, List.all_eq_true] at h
  by_cases hd : dictContains d k = true
  · have hk := (dictContains_iff_mem d k).mp hd
    unfold dictKeys at hk
    rcases List.mem_map.mp hk with ⟨p, hp, hpk⟩
    have := h.1 p hp
    rw [hpk] at this
    rw [hd, this]
  · by_cases he : dictContains e k = true
    · have hk := (dictContains_iff_mem e k).mp he
      unfold dictKeys at hk
      rcases List.mem_map.mp hk with ⟨p, hp, hpk⟩
      have := h.2 p hp
      rw [hpk] at this
      exact absurd this hd
    · rw [Bool.eq_false_iff.mpr hd, Bool.eq_false_iff.mpr he]

theorem dictContains_replace (d : List (κ × ν)) (k k' : κ) (v : ν) :
    dictContains (dictReplace d k v) k' = dictContains d k' := by
  induction d with
  | nil => rfl
  | cons p rest ih =>
    by_cases hp : p.1 = k
    · by_cases hpk' : p.1 = k'
      · simp [dictReplace, dictContains, hp, hpk', hp ▸ hpk', ih]
      · have : ¬ (k : κ) = k' := by rw [← hp]; exact hpk'
        simp [dictReplace, dictContains, hp, hpk', this, ih]
    · simp [dictReplace, dictContains, hp, ih]

theorem dictContains_set (d : List (κ × ν)) (k k' : κ) (v : ν) :
    dictContains (dictSet d k v) k' = (dictContains d k' || decide (k' = k)) := by
  unfold dictSet
  split
  · next h =>
    rw [dictContains_replace]
    by_cases hk : k' = k
    · subst hk
      simp [h]
    · simp [hk]
  · next h =>
    induction d with
    | nil => simp [dictContains, eq_comm]
    | cons p rest ih =>
      have hpk : ¬ p.1 = k := fun hh => h (by simp [dictContains, hh])
      have hrest : ¬ dictContains rest k = true :=
        fun hh => h (by simp [dictContains, hpk, hh])
      by_cases hp : p.1 = k' <;> simp [dictContains, hp, ih hrest]

theorem dictContains_update (d e : List (κ × ν)) (k : κ) :
    dictContains (pyDictUpdate d e) k = (dictContains d k || dictContains e k) := by
  induction e generalizing d with
  | nil => simp [pyDictUpdate, dictContains]
  | cons p rest ih =>
    show dictContains (pyDictUpdate (dictSet d p.1 p.2) rest) k = _
    rw [ih, dictContains_set]
    by_cases hp : p.1 = k
    · subst hp
      simp [dictContains]
    · have hk : ¬ k = p.1 := fun hh => hp hh.symm
      simp [dictContains, hp, hk]

theorem dictLookup_update (d e : List (κ × ν)) (k : κ)
    (hnd : (dictKeys e).Nodup) :
    dictLookup (pyDictUpdate d e) k = (dictLookup e k).or (dictLookup d k) := by
  induction e generalizing d with
  | nil => simp [pyDictUpdate, dictLookup]
  | cons p rest ih =>
    have hnd' : (dictKeys rest).Nodup := by
      simpa [dictKeys] using hnd.of_cons
    have hpnot : p.1 ∉ dictKeys rest := by
      simp [dictKeys] at hnd ⊢
      exact hnd.1
    show dictLookup (pyDictUpdate (dictSet d p.1 p.2) rest) k = _
    rw [ih _ hnd']
    by_cases hp : p.1 = k
    · subst hp
      have : dictContains rest p.1 = false := by
        by_contra hc
        simp [Bool.not_eq_false] at hc
        exact hpnot ((dictContains_iff_mem rest p.1).mp hc)
      rw [dictLookup_eq_none_of_contains_false rest p.1 this]
      simp [dictLookup, dictLookup_set_self]
    · rw [dictLookup_set_other _ _ _ _ (fun hh => hp hh.symm)]
      simp [dictLookup, hp]

end PyDictLemmas

/-- C5 counterexample: a persisted document holding one unknown key.  After
the merge the key set is not the template key set and the unknown key is
preserved, contradicting the claim that keys outside the template are
dropped and that the key set ends up exactly the template key set. -/
theorem config_extra_key_preserved :
    dictContains (mergeLoadedConfig [("extra", CVal.int 1)]) "extra" = true ∧
    dictContains config_template "extra" = false ∧
    keySetEq (mergeLoadedConfig [("extra", CVal.int 1)]) config_template = false := by
  refine ⟨?_, ?_, ?_⟩ <;> rfl

/-- C5 amended: after construction the key set is the union of the template
key set and the loaded key set (unknown keys are preserved, not dropped);
on every key the loaded value wins and template defaults fill the gaps. -/
theorem config_merge_shape (loaded : List (String × CVal))
    (hnd : (dictKeys loaded).Nodup) :
    (∀ k, dictLookup (mergeLoadedConfig loaded) k =
      (dictLookup loaded k).or (dictLookup config_template k)) ∧
    (∀ k, dictContains (mergeLoadedConfig loaded) k =
      (dictContains loaded k || dictContains config_template k)) := by
  unfold mergeLoadedConfig
  by_cases hk : keySetEq loaded config_template = true
  · simp only [hk, if_true]
    constructor
    · intro k
      rcases hl : dictLookup loaded k with _ | v
      · have hc : dictContains loaded k = false := by
          rw [dictContains_eq_isSome_lookup, hl]
          rfl
        have ht : dictContains config_template k = false := by
          rw [← keySetEq_contains loaded config_template hk k]
          exact hc
        rw [dictLookup_eq_none_of_contains_false _ _ ht]
        rfl
      · simp [hl]
    · intro k
      rw [← keySetEq_contains loaded config_template hk k, Bool.or_self]
  · have hkf : keySetEq loaded config_template = false := Bool.eq_false_iff.mpr hk
    rw [hkf]
    simp only [Bool.false_eq_true, if_false]
    exact ⟨fun k => dictLookup_update config_template loaded k hnd,
           fun k => by rw [dictContains_update, Bool.or_comm]⟩

/-- Witness for the amended C5 at a loaded document with one unknown key. -/
theorem config_merge_shape_witness :
    ((dictKeys [("extra", CVal.int 1)]).Nodup) ∧
    ((∀ k, dictLookup (mergeLoadedConfig [("extra", CVal.int 1)]) k =
      (dictLookup [("extra", CVal.int 1)] k).or (dictLookup config_template k)) ∧
    (∀ k, dictContains (mergeLoadedConfig [("extra", CVal.int 1)]) k =
      (dictContains [("extra", CVal.int 1)] k || dictContains config_template k))) :=
  ⟨by simp [dictKeys], config_merge_shape _ (by simp [dictKeys])⟩

theorem mem_insertByKey (p x : String × CVal) (l : List (String × CVal)) :
    x ∈ insertByKey p l ↔ x = p ∨ x ∈ l := by
  induction l with
  | nil => simp [insertByKey]
  | cons q rest ih =>
    unfold insertByKey
    split
    · simp [or_comm, or_left_comm]
    · simp [ih, or_comm, or_left_comm]

theorem insertByKey_perm (p : String × CVal) (l : List (String × CVal)) :
    (insertByKey p l).Perm (p :: l) := by
  induction l with
  | nil => exact List.Perm.refl _
  | cons q rest ih =>
    unfold insertByKey
    split
    · exact List.Perm.refl _
    · exact (List.Perm.cons q ih).trans (List.Perm.swap p q rest)

theorem sortByKey_perm (d : List (String × CVal)) : (sortByKey d).Perm d := by
  induction d with
  | nil => exact List.Perm.refl _
  | cons p rest ih =>
    show (insertByKey p (sortByKey rest)).Perm (p :: rest)
    exact (insertByKey_perm p _).trans (List.Perm.cons p ih)

theorem insertByKey_pairwise_le (p : String × CVal) (l : List (String × CVal))
    (h : l.Pairwise (fun a b => a.1 ≤ b.1)) :
    (insertByKey p l).Pairwise (fun a b => a.1 ≤ b.1) := by
  induction l with
  | nil => simp [insertByKey]
  | cons q rest ih =>
    unfold insertByKey
    split
    · next hle =>
      refine List.Pairwise.cons ?_ h
      intro x hx
      rcases List.mem_cons.mp hx with rfl | hx2
      · exact hle
      · exact le_trans hle (List.rel_of_pairwise_cons h hx2)
    · next hle =>
      have hqp : q.1 ≤ p.1 := le_of_not_le hle
      refine List.Pairwise.cons ?_ (ih h.of_cons)
      intro x hx
      rcases (mem_insertByKey p x rest).mp hx with rfl | hx2
      · exact hqp
      · exact List.rel_of_pairwise_cons h hx2

theorem sortByKey_pairwise_le (d : List (String × CVal)) :
    (sortByKey d).Pairwise (fun a b => a.1 ≤ b.1) := by
  induction d with
  | nil => simp [sortByKey]
  | cons p rest ih => exact insertByKey_pairwise_le p _ ih

theorem pairwise_lt_of_le_nodup (l : List (String × CVal))
    (hle : l.Pairwise (fun a b => a.1 ≤ b.1)) (hnd : (dictKeys l).Nodup) :
    l.Pairwise (fun a b => a.1 < b.1) := by
  have hne : l.Pairwise (fun a b => a.1 ≠ b.1) := by
    unfold dictKeys at hnd
    exact List.pairwise_map.mp hnd
  exact (hle.and hne).imp (fun h => lt_of_le_of_ne h.1 h.2)

theorem dictLookup_eq_none_of_forall_ne (l : List (String × CVal)) (k : String)
    (h : ∀ q ∈ l, ¬ q.1 = k) : dictLookup l k = none := by
  induction l with
  | nil => rfl
  | cons q rest ih =>
    have hq := h q (List.mem_cons_self q rest)
    simp only [dictLookup, if_neg hq]
    exact ih (fun x hx => h x (List.mem_cons_of_mem q hx))

theorem lookup_insertByKey (p : String × CVal) (l : List (String × CVal)) (k : String)
    (hp : ∀ q ∈ l, ¬ q.1 = p.1) :
    dictLookup (insertByKey p l) k = if p.1 = k then some p.2 else dictLookup l k := by
  induction l with
  | nil => rfl
  | cons q rest ih =>
    unfold insertByKey
    split
    · simp [dictLookup]
    · have hq := hp q (List.mem_cons_self q rest)
      have ih2 := ih (fun x hx => hp x (List.mem_cons_of_mem q hx))
      by_cases hqk : q.1 = k
      · have hpk : ¬ p.1 = k := by
          intro hh
          exact hq (by rw [hqk, hh])
        simp [dictLookup, hqk, hpk]
      · simp [dictLookup, hqk, ih2]

theorem dictLookup_sortByKey (d : List (String × CVal))
    (hnd : (dictKeys d).Nodup) (k : String) :
    dictLookup (sortByKey d) k = dictLookup d k := by
  induction d with
  | nil => rfl
  | cons p rest ih =>
    have hnd' : (dictKeys rest).Nodup := by
      simpa [dictKeys] using hnd.of_cons
    have hpn : p.1 ∉ dictKeys rest := by
      simp [dictKeys] at hnd ⊢
      exact hnd.1
    show dictLookup (insertByKey p (sortByKey rest)) k = _
    have hforall : ∀ q ∈ sortByKey rest, ¬ q.1 = p.1 := by
      intro x hx hxp
      have hmem : x ∈ rest := (sortByKey_perm rest).mem_iff.mp hx
      exact hpn (hxp ▸ List.mem_map_of_mem (fun r => r.1) hmem)
    rw [lookup_insertByKey p _ k hforall, ih hnd']
    rfl

theorem dictKeys_sortByKey_nodup (d : List (String × CVal))
    (hnd : (dictKeys d).Nodup) : (dictKeys (sortByKey d)).Nodup := by
  unfold dictKeys at hnd ⊢
  exact ((sortByKey_perm d).map (fun p => p.1)).nodup_iff.mpr hnd

theorem sorted_lookup_ext (xs : List (String × CVal)) :
    ∀ ys : List (String × CVal),
    xs.Pairwise (fun a b => a.1 < b.1) →
    ys.Pairwise (fun a b => a.1 < b.1) →
    (∀ k, dictLookup xs k = dictLookup ys k) → xs = ys := by
  induction xs with
  | nil =>
    intro ys _ _ h
    cases ys with
    | nil => rfl
    | cons q ys' =>
      have hq := h q.1
      simp [dictLookup] at hq
  | cons p xs' ih =>
    intro ys hx hy h
    cases ys with
    | nil =>
      have hp := h p.1
      simp [dictLookup] at hp
    | cons q ys' =>
      rcases lt_trichotomy p.1 q.1 with hlt | heq | hgt
      · exfalso
        have hql : ¬ q.1 = p.1 := (ne_of_gt hlt)
        have hys' : dictLookup ys' p.1 = none := by
          refine dictLookup_eq_none_of_forall_ne _ _ (fun x hx2 hxe => ?_)
          exact (ne_of_gt (lt_trans hlt (List.rel_of_pairwise_cons hy hx2))) hxe
        have h1 := h p.1
        rw [dictLookup, if_pos rfl, dictLookup, if_neg hql, hys'] at h1
        exact Option.noConfusion h1
      · have hv := h p.1
        rw [dictLookup, if_pos rfl, dictLookup, if_pos heq.symm] at hv
        have hp2 : p.2 = q.2 := Option.some.inj hv
        have hpq : p = q := Prod.ext heq hp2
        have htail : ∀ k, dictLookup xs' k = dictLookup ys' k := by
          intro k
          by_cases hk : k = p.1
          · subst hk
            have hxs' : dictLookup xs' p.1 = none := by
              refine dictLookup_eq_none_of_forall_ne _ _ (fun x hx2 hxe => ?_)
              exact (ne_of_gt (List.rel_of_pairwise_cons hx hx2)) hxe
            have hys2 : dictLookup ys' p.1 = none := by
              refine dictLookup_eq_none_of_forall_ne _ _ (fun x hx2 hxe => ?_)
              have hrel := List.rel_of_pairwise_cons hy hx2
              rw [← heq] at hrel
              exact (ne_of_gt hrel) hxe
            rw [hxs', hys2]
          · have h2 := h k
            have hpk : ¬ p.1 = k := fun hh => hk hh.symm
            have hqk : ¬ q.1 = k := by rw [← heq]; exact hpk
            rw [dictLookup, if_neg hpk, dictLookup, if_neg hqk] at h2
            exact h2
        rw [hpq, ih ys' hx.of_cons hy.of_cons htail]
      · exfalso
        have hpl : ¬ p.1 = q.1 := (ne_of_gt hgt)
        have hxs' : dictLookup xs' q.1 = none := by
          refine dictLookup_eq_none_of_forall_ne _ _ (fun x hx2 hxe => ?_)
          exact (ne_of_gt (lt_trans hgt (List.rel_of_pairwise_cons hx hx2))) hxe
        have h1 := h q.1
        rw [dictLookup, if_neg hpl, hxs', dictLookup, if_pos rfl] at h1
        exact Option.noConfusion h1

section PyDictNodup

variable {κ : Type} {ν : Type} [DecidableEq κ]

theorem dictKeys_replace (d : List (κ × ν)) (k : κ) (v : ν) :
    dictKeys (dictReplace d k v) = dictKeys d := by
  induction d with
  | nil => rfl
  | cons p rest ih =>
    by_cases hp : p.1 = k
    · simp [dictReplace, dictKeys, hp, ih]
      simpa [dictKeys] using ih
    · simp [dictReplace, dictKeys, hp]
      simpa [dictKeys] using ih

theorem nodup_keys_set (d : List (κ × ν)) (k : κ) (v : ν)
    (hnd : (dictKeys d).Nodup) : (dictKeys (dictSet d k v)).Nodup := by
  unfold dictSet
  split
  · rw [dictKeys_replace]
    exact hnd
  · next h =>
    have hk : k ∉ dictKeys d := fun hm =>
      h ((dictContains_iff_mem d k).mpr hm)
    unfold dictKeys at hnd hk ⊢
    simp [List.nodup_append, hnd, hk]

theorem nodup_keys_update (d e : List (κ × ν))
    (hnd : (dictKeys d).Nodup) : (dictKeys (pyDictUpdate d e)).Nodup := by
  induction e generalizing d with
  | nil => exact hnd
  | cons p rest ih =>
    exact ih (dictSet d p.1 p.2) (nodup_keys_set d p.1 p.2 hnd)

end PyDictNodup

theorem config_template_keys_nodup : (dictKeys config_template).Nodup := by
  simp [config_template, dictKeys]

theorem merge_again_lookup (m : List (String × CVal))
    (hmnd : (dictKeys m).Nodup)
    (hsup : ∀ k, dictContains config_template k = true → dictContains m k = true)
    (k : String) :
    dictLookup (mergeLoadedConfig (sortByKey m)) k = dictLookup m k := by
  unfold mergeLoadedConfig
  by_cases hk : keySetEq (sortByKey m) config_template = true
  · rw [if_pos hk]
    exact dictLookup_sortByKey m hmnd k
  · rw [if_neg hk]
    rw [dictLookup_update _ _ _ (dictKeys_sortByKey_nodup m hmnd)]
    rw [dictLookup_sortByKey m hmnd k]
    rcases hm : dictLookup m k with _ | v
    · have hmc : dictContains m k = false := by
        rw [dictContains_eq_isSome_lookup, hm]
        rfl
      have htc : dictContains config_template k = false := by
        by_contra hc
        simp [Bool.not_eq_false] at hc
        rw [hsup k hc] at hmc
        exact Bool.noConfusion hmc
      rw [dictLookup_eq_none_of_contains_false _ _ htc]
      rfl
    · rfl

/-- C9: the schema merge of WithingsConfig construction is idempotent over a
persist/load round trip: loading the document persisted by a first
construction and constructing again changes no binding of the in-memory
mapping, and the persisted (key-sorted) entry list is byte-identical. -/
theorem config_merge_idempotent (loaded : List (String × CVal))
    (hnd : (dictKeys loaded).Nodup) :
    (∀ k, dictLookup (mergeLoadedConfig (sortByKey (mergeLoadedConfig loaded))) k =
      dictLookup (mergeLoadedConfig loaded) k) ∧
    sortByKey (mergeLoadedConfig (sortByKey (mergeLoadedConfig loaded))) =
      sortByKey (mergeLoadedConfig loaded) := by
  have hmerge_nodup : ∀ x : List (String × CVal), (dictKeys x).Nodup →
      (dictKeys (mergeLoadedConfig x)).Nodup := by
    intro x hx
    unfold mergeLoadedConfig
    split
    · exact hx
    · exact nodup_keys_update _ _ config_template_keys_nodup
  have hm_nodup : (dictKeys (mergeLoadedConfig loaded)).Nodup :=
    hmerge_nodup loaded hnd
  have hsup : ∀ k, dictContains config_template k = true →
      dictContains (mergeLoadedConfig loaded) k = true := by
    intro k hk
    unfold mergeLoadedConfig
    split
    · next he => rw [keySetEq_contains loaded config_template he k, hk]
    · rw [dictContains_update]
      simp [hk]
  have hlook := fun k =>
    merge_again_lookup (mergeLoadedConfig loaded) hm_nodup hsup k
  refine ⟨hlook, ?_⟩
  have hA_nodup : (dictKeys (mergeLoadedConfig
      (sortByKey (mergeLoadedConfig loaded)))).Nodup :=
    hmerge_nodup _ (dictKeys_sortByKey_nodup _ hm_nodup)
  refine sorted_lookup_ext _ _
    (pairwise_lt_of_le_nodup _ (sortByKey_pairwise_le _)
      (dictKeys_sortByKey_nodup _ hA_nodup))
    (pairwise_lt_of_le_nodup _ (sortByKey_pairwise_le _)
      (dictKeys_sortByKey_nodup _ hm_nodup))
    (fun k => ?_)
  rw [dictLookup_sortByKey _ hA_nodup k, dictLookup_sortByKey _ hm_nodup k]
  exact hlook k

/-- Witness for C9 at a loaded document with one unknown key. -/
theorem config_merge_idempotent_witness :
    ((dictKeys [("extra", CVal.int 1)]).Nodup) ∧
    ((∀ k, dictLookup (mergeLoadedConfig
        (sortByKey (mergeLoadedConfig [("extra", CVal.int 1)]))) k =
      dictLookup (mergeLoadedConfig [("extra", CVal.int 1)]) k) ∧
    sortByKey (mergeLoadedConfig
        (sortByKey (mergeLoadedConfig [("extra", CVal.int 1)]))) =
      sortByKey (mergeLoadedConfig [("extra", CVal.int 1)])) :=
  ⟨by simp [dictKeys], config_merge_idempotent _ (by simp [dictKeys])⟩

/-- Witness for C10 at a group whose weight and diastolic measurements both
decode to 0.0. -/
theorem zero_decoded_values_excluded_witness :
    (buildGroupData none
      { grpid := 3, attrib := 0, date := 7, category := 1,
        measures := [{ value := 0, type := 1, unit := -2 },
                     { value := 0, type := 9, unit := -2 }] }).weight = none ∧
    (buildGroupData none
      { grpid := 3, attrib := 0, date := 7, category := 1,
        measures := [{ value := 0, type := 1, unit := -2 },
                     { value := 0, type := 9, unit := -2 }] }).diastolic_blood_pressure
      = none ∧
    dictLookup (prepare_step none []
      { grpid := 3, attrib := 0, date := 7, category := 1,
        measures := [{ value := 0, type := 1, unit := -2 },
                     { value := 0, type := 9, unit := -2 }] }) (7 : ℤ) = none := by
  have h0 : pyRound 2 (0 : ℚ) = 0 := pyRound_eq_self 2 _ 0 (by norm_num)
  have hgw : WithingsMeasureGroup.get_weight
      { grpid := 3, attrib := 0, date := 7, category := 1,
        measures := [{ value := 0, type := 1, unit := -2 },
                     { value := 0, type := 9, unit := -2 }] } = some 0 := by
    simp only [WithingsMeasureGroup.get_weight, WithingsMeasureGroup.typedValue,
      WithingsMeasure.TYPE_WEIGHT, WithingsMeasure.get_value]
    norm_num [h0]
  have hgd : WithingsMeasureGroup.get_diastolic_blood_pressure
      { grpid := 3, attrib := 0, date := 7, category := 1,
        measures := [{ value := 0, type := 1, unit := -2 },
                     { value := 0, type := 9, unit := -2 }] } = some 0 := by
    simp only [WithingsMeasureGroup.get_diastolic_blood_pressure,
      WithingsMeasureGroup.typedValue,
      WithingsMeasure.TYPE_DIASTOLIC_BLOOD_PRESSURE, WithingsMeasure.get_value]
    norm_num [h0]
  exact ⟨(zero_decoded_values_excluded.1 none _ hgw).1,
         (zero_decoded_values_excluded.2.1 none _ hgd).1,
         zero_decoded_values_excluded.2.2 none _ [] hgw hgd⟩
